import Mathlib

/-!
Verification of the GAEZ-v5 caloric-yield aggregation core.

Shallow embedding of the aggregation functions of `src/utils.py` and
`get_har_area.py`:

* `gaezv5_path`            — the path resolver (`utils.gaezv5_path`);
* `YR_WATER_TO_AREA`       — the water-regime translation dict local to
  `utils.group_kcal_average`;
* `GetHarArea.YR_WATER_TO_AREA` — the module-level copy in `get_har_area.py`;
* `alignTo`                — the inline conditional reprojection
  (`x.rio.reproject_match(ref) if grids differ else x`);
* `group_kcal_average`     — the per-group aggregator;
* `sum_groups_kcal`        — the cross-group calorie reducer;
* `GetHarArea.sum_groups_har_area` — the harvested-area reducer.

Conventions of the embedding: raster cell values are `Option ℚ` with `none`
playing the role of the IEEE NaN / nodata sentinel (the pipeline loads rasters
with masked nodata, so NaN is the only non-finite value in play, and the
claims under study concern NaN propagation and exact arithmetic, not float
rounding).  Python exceptions become `Except PyErr`.  I/O (`open_raster`) and
the externally-implemented GDAL resampling kernel of `reproject_match` are
parameters (`loader`, `resample`): every theorem below holds for an arbitrary
loader and an arbitrary resampler.
-/

/-- Python exceptions that the embedded code can raise. -/
inductive PyErr where
  /-- any exception escaping `open_raster` for the given url
      (SourceUnavailable / SourceMalformed). -/
  | loadFail (url : String)
  /-- `KeyError` from a dict subscript miss. -/
  | keyError (key : String)
  /-- `TypeError` from iterating `None` (a `dict.get` miss passed as the
      member-crop list). -/
  | typeError
  /-- `raise ValueError(msg)`. -/
  | valueError (msg : String)
deriving DecidableEq, Repr

/-- True exactly on `Except.error`. -/
def exceptErr {α : Type} : Except PyErr α → Bool
  | .error _ => true
  | .ok _ => false

/-- The `scheme` keyword of `gaezv5_path`; the dict literal in the source has
exactly these two keys, and every call in the repository uses the default
`https`. -/
inductive UrlScheme where
  | https
  | gs
deriving DecidableEq, Repr

/-- The `base` dict of `gaezv5_path`. -/
def gaezBase : UrlScheme → String
  | .https => "https://storage.googleapis.com/fao-gismgr-gaez-v5-data/DATA/GAEZ-V5/MAPSET"
  | .gs => "gs://fao-gismgr-gaez-v5-data/DATA/GAEZ-V5/MAPSET"

/-- Python's `str.startswith`, stated on the character data (structurally
recursive, unlike `String.startsWith`, so it evaluates in the kernel). -/
def pyStartsWith (s pre : String) : Bool :=
  pre.data.isPrefixOf s.data

/-- `utils.gaezv5_path`.  Token parameters are strings; where the Python
callers pass `None` for an unused keyword the embedding passes the string
"None" (the f-string rendering), which the selected branch never reads.
The branch structure mirrors the source exactly, including the dead
re-tests of "RES04" in the second `elif` and "RES05" in the third. -/
def gaezv5_path (variable_code period climate_model scenario crop water_code : String)
    (scheme : UrlScheme) : Except PyErr String :=
  let base := gaezBase scheme
  if pyStartsWith variable_code "RES02" || pyStartsWith variable_code "RES03"
      || pyStartsWith variable_code "RES04" then
    .ok (base ++ "/" ++ variable_code ++ "/" ++
      ("GAEZ-V5." ++ variable_code ++ "." ++ period ++ "." ++ climate_model ++ "."
        ++ scenario ++ "." ++ crop ++ "." ++ water_code ++ ".tif"))
  else if pyStartsWith variable_code "RES05" || pyStartsWith variable_code "RES04" then
    .ok (base ++ "/" ++ variable_code ++ "/" ++
      ("GAEZ-V5." ++ variable_code ++ "." ++ period ++ "." ++ climate_model ++ "."
        ++ scenario ++ "." ++ crop ++ "." ++ water_code ++ ".tif"))
  else if pyStartsWith variable_code "RES06" || pyStartsWith variable_code "RES05" then
    .ok (base ++ "/" ++ variable_code ++ "/" ++
      ("GAEZ-V5." ++ variable_code ++ "." ++ crop ++ "." ++ water_code ++ ".tif"))
  else
    .error (.valueError "Unrecognized variable code family.")

/-- A variable family whose prefix matches one of the prefixes tested by
`gaezv5_path` (the union of the three branch tuples). -/
def familyKnown (variable_code : String) : Bool :=
  pyStartsWith variable_code "RES02" || pyStartsWith variable_code "RES03"
    || pyStartsWith variable_code "RES04" || pyStartsWith variable_code "RES05"
    || pyStartsWith variable_code "RES06"

/-- Families dispatched to the time/scenario-dependent format (scheme A):
the first two branches of `gaezv5_path`, which emit identical formats. -/
def schemeA (variable_code : String) : Bool :=
  pyStartsWith variable_code "RES02" || pyStartsWith variable_code "RES03"
    || pyStartsWith variable_code "RES04" || pyStartsWith variable_code "RES05"

/-- Families dispatched to the static format (scheme B): the third branch,
reached only when no scheme-A prefix matched. -/
def schemeB (variable_code : String) : Bool :=
  !schemeA variable_code && pyStartsWith variable_code "RES06"

/-- The `YR_WATER_TO_AREA` dict local to `utils.group_kcal_average`,
as the partial lookup a Python dict subscript performs. -/
def YR_WATER_TO_AREA (water_code : String) : Option String :=
  if water_code = "HILM" then some "WSI"
  else if water_code = "LILM" then some "WSI"
  else if water_code = "HRLM" then some "WSR"
  else if water_code = "LRLM" then some "WSR"
  else none

namespace GetHarArea

/-- The module-level `YR_WATER_TO_AREA` dict of `get_har_area.py`; it has
only the two high-input entries. -/
def YR_WATER_TO_AREA (water_code : String) : Option String :=
  if water_code = "HILM" then some "WSI"
  else if water_code = "HRLM" then some "WSR"
  else none

end GetHarArea

/-- `Grid`: the three spatial-indexing facts the source compares when deciding
whether to reproject (`x.rio.crs`, `x.rio.transform()`, `x.shape`). -/
structure Grid where
  crs : String
  transform : List ℚ
  shape : Nat × Nat
deriving DecidableEq, Repr

/-- A loaded raster: its grid and a cell-value map; `none` is the NaN/nodata
sentinel produced by `open_raster(..., masked=True)`.  (The name attached by
the source (`kcal_<group>` etc.) and the float32/float64 dtype casts are
metadata with no effect on cell values and are not modelled.) -/
structure Raster where
  grid : Grid
  data : Nat → Nat → Option ℚ

/-- A resampling kernel: the externally-implemented (GDAL) part of
`rio.reproject_match`, producing the cell values of `r` regridded onto the
grid of `ref`.  Every theorem below is quantified over it. -/
def Resampler : Type := Raster → Raster → Nat → Nat → Option ℚ

/-- A raster loader: `open_raster` composed with the remote store; an
`Except.error` stands for any exception escaping `open_raster`. -/
def Loader : Type := String → Except PyErr Raster

/-- The inline conditional reprojection the source writes at both call sites:
`x.rio.reproject_match(ref) if (x.rio.crs != ref.rio.crs) or
(x.rio.transform() != ref.rio.transform()) or (x.shape != ref.shape) else x`. -/
def alignTo (resample : Resampler) (ref r : Raster) : Raster :=
  if r.grid.crs ≠ ref.grid.crs ∨ r.grid.transform ≠ ref.grid.transform
      ∨ r.grid.shape ≠ ref.grid.shape then
    { grid := ref.grid, data := resample r ref }
  else r

/-- NaN-as-zero summation: `numpy`'s `nansum`, the per-cell reduction
performed by `.sum(dim, skipna=True)` with the default `min_count`. -/
def nansum (vals : List (Option ℚ)) : ℚ :=
  vals.foldl (fun acc v => acc + v.getD 0) 0

/-- `xr.concat(hd :: tl, dim).sum(dim, skipna=True)` cell-wise, for layers on
a common grid: the final reduction of `sum_groups_kcal` (utils.py line 168)
and of `sum_groups_har_area` (get_har_area.py line 72). -/
def sumSkipna (hd : Raster) (tl : List Raster) : Raster :=
  { grid := hd.grid,
    data := fun i j => some (nansum ((hd :: tl).map (fun r => r.data i j))) }

/-- `xr.concat(hd :: tl, dim).mean(dim, skipna=True)` cell-wise, for layers
on a common grid: `numpy` `nanmean`, which is NaN on an all-NaN slice. -/
def meanSkipna (hd : Raster) (tl : List Raster) : Raster :=
  { grid := hd.grid,
    data := fun i j =>
      let vs := (hd :: tl).filterMap (fun r => r.data i j)
      if vs.isEmpty then none else some (vs.sum / (vs.length : ℚ)) }

/-- Cell-wise raster product (`DataArray.__mul__` on aligned operands):
NaN-propagating. -/
def mulRaster (a b : Raster) : Raster :=
  { grid := a.grid,
    data := fun i j => (a.data i j).bind (fun x => (b.data i j).map (fun y => x * y)) }

/-- Raster-by-scalar product (NaN-propagating, so `r * 0.0` keeps NaN cells). -/
def mulScalar (r : Raster) (q : ℚ) : Raster :=
  { grid := r.grid, data := fun i j => (r.data i j).map (fun x => x * q) }

/-- The mutable state threaded through the member-crop loop of
`group_kcal_average` (lines 119-142): the collected yield layers
(`yld_ha_layers`), the reference raster (`ref`), the (possibly reprojected)
harvested-area raster (`areaG`), and the crops skipped with a warning. -/
structure LoopState where
  layers : List Raster
  ref : Option Raster
  areaG : Raster
  warns : List String

/-- The `for c in crops` loop of `group_kcal_average`: resolve the member
yield path (outside the `try`, so a resolver failure propagates), attempt the
load (any failure is logged and the member skipped), and on the first success
set `ref` and conditionally reproject the area raster onto it.  Later
successfully loaded members are appended as-is, with no realignment. -/
def memberLoop (resample : Resampler) (loader : Loader)
    (variable_code_yield period climate_model scenario water_code : String) :
    List String → LoopState → Except PyErr LoopState
  | [], st => .ok st
  | c :: cs, st =>
    match gaezv5_path variable_code_yield period climate_model scenario c water_code
        .https with
    | .error e => .error e
    | .ok y_path =>
      match loader y_path with
      | .error _ =>
        memberLoop resample loader variable_code_yield period climate_model scenario
          water_code cs { st with warns := st.warns ++ [c] }
      | .ok yld =>
        match st.ref with
        | none =>
          memberLoop resample loader variable_code_yield period climate_model scenario
            water_code cs
            ⟨st.layers ++ [yld], some yld, alignTo resample yld st.areaG, st.warns⟩
        | some _ =>
          memberLoop resample loader variable_code_yield period climate_model scenario
            water_code cs { st with layers := st.layers ++ [yld] }

/-- `group_kcal_average` up to the end of its member loop: water-regime
translation (a dict subscript, so `KeyError` on an unrecognized code), area
path resolution, the uncaught area load, then the loop.  The member list is
an `Option` because `sum_groups_kcal` passes `crop_mapping.get(group)`:
when it is `None`, the Python `for` raises `TypeError` at this point. -/
def group_kcal_state (resample : Resampler) (loader : Loader)
    (group : String) (crops : Option (List String)) (water_code : String)
    (variable_code_yield period climate_model scenario : String) :
    Except PyErr LoopState :=
  match YR_WATER_TO_AREA water_code with
  | none => .error (.keyError water_code)
  | some area_water =>
    match gaezv5_path "RES06-HAR" "None" "None" "None" group area_water .https with
    | .error e => .error e
    | .ok a_path =>
      match loader a_path with
      | .error e => .error e
      | .ok areaG =>
        match crops with
        | none => .error .typeError
        | some cropsL =>
          memberLoop resample loader variable_code_yield period climate_model scenario
            water_code cropsL ⟨[], none, areaG, []⟩

/-- `utils.group_kcal_average`.  Returns the group raster paired with the
list of member crops skipped with a warning (the embedding of the
`logging.warning` side channel). -/
def group_kcal_average (resample : Resampler) (loader : Loader)
    (group : String) (crops : Option (List String)) (kcal_per_kg : ℚ)
    (water_code variable_code_yield period climate_model scenario : String) :
    Except PyErr (Raster × List String) :=
  match group_kcal_state resample loader group crops water_code variable_code_yield
      period climate_model scenario with
  | .error e => .error e
  | .ok st =>
    match st.layers with
    | [] => .ok (mulScalar st.areaG 0, st.warns)
    | hd :: tl =>
      .ok (mulScalar (mulRaster (meanSkipna hd tl) st.areaG) kcal_per_kg, st.warns)

/-- The `for group_crop, kcal in calorie_mapping.items()` loop of
`sum_groups_kcal`, accumulating `group_layers`; a `crop_mapping` without the
group yields `crops = None` and the group computation raises. -/
def sumLayersLoop (resample : Resampler) (loader : Loader)
    (crop_mapping : List (String × List String))
    (water_code variable_code_yield period climate_model scenario : String) :
    List (String × ℚ) → List Raster → Except PyErr (List Raster)
  | [], acc => .ok acc
  | (group_crop, kcal) :: rest, acc =>
    match group_kcal_average resample loader group_crop (crop_mapping.lookup group_crop)
        kcal water_code variable_code_yield period climate_model scenario with
    | .error e => .error e
    | .ok pr =>
      sumLayersLoop resample loader crop_mapping water_code variable_code_yield period
        climate_model scenario rest (acc ++ [pr.1])

/-- `utils.sum_groups_kcal`: one layer per calorie-mapping entry, then
`xr.concat(...).sum("group", skipna=True)` (which raises on an empty list). -/
def sum_groups_kcal (resample : Resampler) (loader : Loader)
    (crop_mapping : List (String × List String)) (calorie_mapping : List (String × ℚ))
    (water_code variable_code_yield period climate_model scenario : String) :
    Except PyErr Raster :=
  match sumLayersLoop resample loader crop_mapping water_code variable_code_yield period
      climate_model scenario calorie_mapping [] with
  | .error e => .error e
  | .ok [] => .error (.valueError "must supply at least one object to concatenate")
  | .ok (hd :: tl) => .ok (sumSkipna hd tl)

namespace GetHarArea

/-- Loop state of `sum_groups_har_area`: collected area layers and the
reference raster (the first successful load). -/
structure AreaState where
  layers : List Raster
  ref : Option Raster

/-- The `for group in groups` loop of `get_har_area.sum_groups_har_area`:
skip-and-warn on load failure; the first success becomes the reference and
every later layer is conditionally reprojected onto it before collection. -/
def areaLoop (resample : Resampler) (loader : Loader) (area_water : String) :
    List String → AreaState → Except PyErr AreaState
  | [], st => .ok st
  | g :: gs, st =>
    match gaezv5_path "RES06-HAR" "None" "None" "None" g area_water .https with
    | .error e => .error e
    | .ok a_path =>
      match loader a_path with
      | .error _ => areaLoop resample loader area_water gs st
      | .ok areaG =>
        match st.ref with
        | none =>
          areaLoop resample loader area_water gs ⟨st.layers ++ [areaG], some areaG⟩
        | some r =>
          areaLoop resample loader area_water gs
            ⟨st.layers ++ [alignTo resample r areaG], some r⟩

/-- `get_har_area.sum_groups_har_area`: translate the water code with this
module's two-entry dict, collect per-group area layers, raise `ValueError`
when none loaded, otherwise sum with skipna. -/
def sum_groups_har_area (resample : Resampler) (loader : Loader)
    (groups : List String) (water_code : String) : Except PyErr Raster :=
  match YR_WATER_TO_AREA water_code with
  | none => .error (.keyError water_code)
  | some area_water =>
    match areaLoop resample loader area_water groups ⟨[], none⟩ with
    | .error e => .error e
    | .ok st =>
      match st.layers with
      | [] =>
        .error (.valueError ("No valid area layers found for water_code=" ++ water_code))
      | hd :: tl => .ok (sumSkipna hd tl)

end GetHarArea

/-- The scheme-A identifier format (first two branches of `gaezv5_path`,
https base): all six tokens embedded in fixed dotted order. -/
def yldPath (variable_code period climate_model scenario crop water_code : String) : String :=
  gaezBase .https ++ "/" ++ variable_code ++ "/" ++
    ("GAEZ-V5." ++ variable_code ++ "." ++ period ++ "." ++ climate_model ++ "."
      ++ scenario ++ "." ++ crop ++ "." ++ water_code ++ ".tif")

/-- The scheme-B identifier format (third branch of `gaezv5_path`, https
base): only family, crop and water code are embedded. -/
def statPath (variable_code crop water_code : String) : String :=
  gaezBase .https ++ "/" ++ variable_code ++ "/" ++
    ("GAEZ-V5." ++ variable_code ++ "." ++ crop ++ "." ++ water_code ++ ".tif")

/-- The member yield rasters that load successfully, in member order,
exactly as the loop of `group_kcal_average` collects them. -/
def loadedRasters (loader : Loader)
    (variable_code_yield period climate_model scenario water_code : String)
    (crops : List String) : List Raster :=
  crops.filterMap (fun c =>
    (loader (yldPath variable_code_yield period climate_model scenario c water_code)).toOption)

/-- The member crops whose yield load fails (each is logged and skipped). -/
def failedCrops (loader : Loader)
    (variable_code_yield period climate_model scenario water_code : String)
    (crops : List String) : List String :=
  crops.filter (fun c =>
    exceptErr (loader (yldPath variable_code_yield period climate_model scenario c water_code)))

/-- Cell value of the raster of a successful `group_kcal_average` result. -/
def okCell (r : Except PyErr (Raster × List String)) (i j : Nat) : Option (Option ℚ) :=
  r.toOption.map (fun pr => pr.1.data i j)

/-- Warning list of a successful `group_kcal_average` result. -/
def okWarns (r : Except PyErr (Raster × List String)) : Option (List String) :=
  r.toOption.map (fun pr => pr.2)

/-- Modelled from the spec: the per-cell group-output formula of §4.4 step 6,
`mean(member_yields, skipna) * harvested_area * kcal_per_kg`, with NaN
propagation (NaN mean over an all-NaN slice, NaN area cell stays NaN). -/
def specKcalCell (members : List Raster) (area : Raster) (kcal : ℚ) (i j : Nat) :
    Option ℚ :=
  let vs := members.filterMap (fun r => r.data i j)
  if vs.isEmpty then none
  else (area.data i j).map (fun a => vs.sum / (vs.length : ℚ) * a * kcal)

/-- A string with no "." separator character (the condition under which the
dotted naming scheme is unambiguous). -/
def dotFree (s : String) : Prop := ('.' : Char) ∉ s.data

/-- Concrete 2×2 grid fixture. -/
def grid1 : Grid := ⟨"EPSG:4326", [1, 0, 0, 0, 1, 0], (2, 2)⟩

/-- Concrete 3×3 grid fixture differing from `grid1`. -/
def grid2 : Grid := ⟨"EPSG:4326", [1, 0, 0, 0, 1, 0], (3, 3)⟩

/-- Constant raster fixture. -/
def constRaster (g : Grid) (q : ℚ) : Raster := ⟨g, fun _ _ => some q⟩

/-- All-NaN raster fixture. -/
def nanRaster (g : Grid) : Raster := ⟨g, fun _ _ => none⟩

/-- Raster fixture with NaN at cell (0,0) and the given value elsewhere. -/
def holeRaster (g : Grid) (q : ℚ) : Raster :=
  ⟨g, fun i j => if i = 0 ∧ j = 0 then none else some q⟩

/-- A concrete resampling kernel for witnesses (keeps cell values). -/
def resampleId : Resampler := fun r _ i j => r.data i j

/-- Loader for the spec's end-to-end scenario: group "BAN", member "BANA"
loads with yield 2.0 everywhere, member "PLNT" is missing, harvested area
100 everywhere. -/
def banLoader : Loader := fun url =>
  if url = yldPath "RES05-YCX" "HP0120" "AGERA5" "HIST" "BANA" "HILM" then
    .ok (constRaster grid1 2)
  else if url = statPath "RES06-HAR" "BAN" "WSI" then
    .ok (constRaster grid1 100)
  else .error (.loadFail url)

/-- Loader where every load fails. -/
def failLoader : Loader := fun url => .error (.loadFail url)

/-- Loader delivering two member yield rasters on different grids plus an
area raster. -/
def twoGridLoader : Loader := fun url =>
  if url = yldPath "RES05-YCX" "P" "M" "S" "C1" "HILM" then .ok (constRaster grid1 1)
  else if url = yldPath "RES05-YCX" "P" "M" "S" "C2" "HILM" then .ok (constRaster grid2 1)
  else if url = statPath "RES06-HAR" "G" "WSI" then .ok (constRaster grid1 5)
  else .error (.loadFail url)

/-- Loader delivering only an area raster with a NaN cell; every member
yield load fails. -/
def nanAreaLoader : Loader := fun url =>
  if url = statPath "RES06-HAR" "G" "WSI" then .ok (holeRaster grid1 100)
  else .error (.loadFail url)

theorem gaezv5_path_err (variable_code period climate_model scenario crop water_code : String)
    (scheme : UrlScheme) :
    exceptErr (gaezv5_path variable_code period climate_model scenario crop water_code scheme)
      = !familyKnown variable_code := by
  unfold gaezv5_path familyKnown
  by_cases h2 : pyStartsWith variable_code "RES02" <;>
    by_cases h3 : pyStartsWith variable_code "RES03" <;>
      by_cases h4 : pyStartsWith variable_code "RES04" <;>
        by_cases h5 : pyStartsWith variable_code "RES05" <;>
          by_cases h6 : pyStartsWith variable_code "RES06" <;>
            simp [h2, h3, h4, h5, h6, exceptErr]

theorem statPath_ok (period climate_model scenario crop water_code : String) :
    gaezv5_path "RES06-HAR" period climate_model scenario crop water_code .https
      = .ok (statPath "RES06-HAR" crop water_code) := rfl

theorem yldPath_ok {variable_code : String} (h : schemeA variable_code = true)
    (period climate_model scenario crop water_code : String) :
    gaezv5_path variable_code period climate_model scenario crop water_code .https
      = .ok (yldPath variable_code period climate_model scenario crop water_code) := by
  unfold schemeA at h
  unfold gaezv5_path yldPath
  by_cases h2 : pyStartsWith variable_code "RES02" <;>
    by_cases h3 : pyStartsWith variable_code "RES03" <;>
      by_cases h4 : pyStartsWith variable_code "RES04" <;>
        by_cases h5 : pyStartsWith variable_code "RES05" <;>
          simp_all

theorem alignTo_of_eq (resample : Resampler) {ref r : Raster} (h : r.grid = ref.grid) :
    alignTo resample ref r = r := by
  unfold alignTo
  rw [h]
  simp

theorem alignTo_grid (resample : Resampler) (ref r : Raster) :
    (alignTo resample ref r).grid = ref.grid := by
  unfold alignTo
  split
  · rfl
  · next h =>
    push_neg at h
    obtain ⟨h1, h2, h3⟩ := h
    have hr := r.grid
    cases hg : r.grid
    cases hg2 : ref.grid
    simp_all

theorem nansum_aux (vals : List (Option ℚ)) :
    ∀ acc : ℚ, vals.foldl (fun a v => a + v.getD 0) acc = acc + (vals.filterMap id).sum := by
  induction vals with
  | nil => intro acc; simp
  | cons v vs ih =>
    intro acc
    cases v with
    | none => simp [ih]
    | some q => simp [ih]; ring

theorem nansum_eq (vals : List (Option ℚ)) : nansum vals = (vals.filterMap id).sum := by
  unfold nansum
  rw [nansum_aux]
  simp

theorem memberLoop_spec (resample : Resampler) (loader : Loader)
    {variable_code_yield : String} (period climate_model scenario water_code : String)
    (h : schemeA variable_code_yield = true) :
    ∀ (crops : List String) (st : LoopState),
    memberLoop resample loader variable_code_yield period climate_model scenario
        water_code crops st
      = .ok
        { layers := st.layers ++
            loadedRasters loader variable_code_yield period climate_model scenario
              water_code crops,
          ref := match st.ref with
            | some r => some r
            | none => (loadedRasters loader variable_code_yield period climate_model
                scenario water_code crops).head?,
          areaG := match st.ref with
            | some _ => st.areaG
            | none =>
              match (loadedRasters loader variable_code_yield period climate_model
                  scenario water_code crops).head? with
              | none => st.areaG
              | some y => alignTo resample y st.areaG,
          warns := st.warns ++
            failedCrops loader variable_code_yield period climate_model scenario
              water_code crops } := by
  intro crops
  induction crops with
  | nil =>
    intro st
    obtain ⟨l, r, a, w⟩ := st
    cases r <;> simp [memberLoop, loadedRasters, failedCrops]
  | cons c cs ih =>
    intro st
    obtain ⟨l, r, a, w⟩ := st
    rw [memberLoop, yldPath_ok h]
    cases r <;>
      cases hld : loader (yldPath variable_code_yield period climate_model scenario c
          water_code) <;>
        simp [ih, loadedRasters, failedCrops, hld, exceptErr, Except.toOption,
          List.filterMap_cons, List.filter_cons]

theorem group_state_spec (resample : Resampler) (loader : Loader)
    {water_code aw : String} (group : String) (crops : List String)
    {variable_code_yield : String} (period climate_model scenario : String)
    (hw : YR_WATER_TO_AREA water_code = some aw) {A : Raster}
    (hA : loader (statPath "RES06-HAR" group aw) = .ok A)
    (hvc : schemeA variable_code_yield = true) :
    group_kcal_state resample loader group (some crops) water_code variable_code_yield
        period climate_model scenario
      = .ok
        { layers := loadedRasters loader variable_code_yield period climate_model
            scenario water_code crops,
          ref := (loadedRasters loader variable_code_yield period climate_model
            scenario water_code crops).head?,
          areaG :=
            match (loadedRasters loader variable_code_yield period climate_model
                scenario water_code crops).head? with
            | none => A
            | some y => alignTo resample y A,
          warns := failedCrops loader variable_code_yield period climate_model
            scenario water_code crops } := by
  unfold group_kcal_state
  simp only [hw, statPath_ok, hA]
  rw [memberLoop_spec resample loader period climate_model scenario water_code hvc]
  simp

theorem group_none_err (resample : Resampler) (loader : Loader)
    (group : String) (kcal_per_kg : ℚ)
    (water_code variable_code_yield period climate_model scenario : String) :
    exceptErr (group_kcal_average resample loader group none kcal_per_kg water_code
      variable_code_yield period climate_model scenario) = true := by
  unfold group_kcal_average group_kcal_state
  cases hw : YR_WATER_TO_AREA water_code with
  | none => simp [exceptErr]
  | some aw =>
    simp only [hw, statPath_ok]
    cases hl : loader (statPath "RES06-HAR" group aw) <;> simp [hl, exceptErr]

theorem sumLayersLoop_err (resample : Resampler) (loader : Loader)
    (crop_mapping : List (String × List String))
    (water_code variable_code_yield period climate_model scenario : String)
    {g : String} {kc : ℚ} :
    ∀ calorie_mapping : List (String × ℚ), (g, kc) ∈ calorie_mapping →
    crop_mapping.lookup g = none →
    ∀ acc, exceptErr (sumLayersLoop resample loader crop_mapping water_code
      variable_code_yield period climate_model scenario calorie_mapping acc) = true := by
  intro calorie_mapping
  induction calorie_mapping with
  | nil => intro hmem; simp at hmem
  | cons hd rest ih =>
    obtain ⟨g1, kc1⟩ := hd
    intro hmem hlook acc
    rw [sumLayersLoop]
    cases hga : group_kcal_average resample loader g1 (crop_mapping.lookup g1) kc1
        water_code variable_code_yield period climate_model scenario with
    | error e => simp [exceptErr]
    | ok pr =>
      rcases List.mem_cons.mp hmem with heq | hmem1
      · have hg : g = g1 := congrArg Prod.fst heq
        subst hg
        rw [hlook] at hga
        have hnone := group_none_err resample loader g kc1 water_code
          variable_code_yield period climate_model scenario
        rw [hga] at hnone
        simp [exceptErr] at hnone
      · simpa using ih hmem1 hlook (acc ++ [pr.1])

/-- C7: `gaezv5_path` raises the `Unrecognized variable code family` ValueError
exactly for variable families matching none of the known prefixes
(RES02/RES03/RES04/RES05/RES06), and succeeds for every family matching a
known prefix, for all token values and both url schemes. -/
theorem gaez_path_unrecognized_family :
    (∀ variable_code period climate_model scenario crop water_code scheme,
      exceptErr (gaezv5_path variable_code period climate_model scenario crop
        water_code scheme) = !familyKnown variable_code)
    ∧ (∀ variable_code period climate_model scenario crop water_code scheme,
      familyKnown variable_code = false →
      gaezv5_path variable_code period climate_model scenario crop water_code scheme
        = .error (.valueError "Unrecognized variable code family.")) := by
  constructor
  · exact gaezv5_path_err
  · intro vc p cm s c w sch h
    unfold familyKnown at h
    unfold gaezv5_path
    by_cases h2 : pyStartsWith vc "RES02" <;>
      by_cases h3 : pyStartsWith vc "RES03" <;>
        by_cases h4 : pyStartsWith vc "RES04" <;>
          by_cases h5 : pyStartsWith vc "RES05" <;>
            by_cases h6 : pyStartsWith vc "RES06" <;>
              simp_all

/-- Witness for C7 at a concrete unrecognized family. -/
theorem gaez_path_unrecognized_family_witness :
    gaezv5_path "XYZ-FOO" "P" "M" "S" "C" "W" .https
      = .error (.valueError "Unrecognized variable code family.") :=
  gaez_path_unrecognized_family.2 "XYZ-FOO" "P" "M" "S" "C" "W" .https (by decide)

/-- C8: when the candidate raster's grid (crs, transform, shape) equals the
reference grid, the conditional reprojection returns the candidate unchanged,
for every resampling kernel (so no resampling is performed). -/
theorem grid_aligner_identity (resample : Resampler) (ref r : Raster)
    (h : r.grid = ref.grid) : alignTo resample ref r = r :=
  alignTo_of_eq resample h

/-- Witness for C8 on concrete rasters sharing a grid. -/
theorem grid_aligner_identity_witness :
    alignTo resampleId (constRaster grid1 1) (constRaster grid1 2)
      = constRaster grid1 2 :=
  grid_aligner_identity resampleId (constRaster grid1 1) (constRaster grid1 2) rfl

/-- C9 (amended): the water-regime translation local to `group_kcal_average`
is total over exactly the four recognized codes with the claimed values
(HILM, LILM to WSI; HRLM, LRLM to WSR), while the copy in `get_har_area.py`
is defined on exactly the two high-input codes HILM and HRLM. -/
theorem water_regime_mappings :
    (∀ w, (YR_WATER_TO_AREA w).isSome = true ↔
      (w = "HILM" ∨ w = "LILM" ∨ w = "HRLM" ∨ w = "LRLM"))
    ∧ YR_WATER_TO_AREA "HILM" = some "WSI"
    ∧ YR_WATER_TO_AREA "LILM" = some "WSI"
    ∧ YR_WATER_TO_AREA "HRLM" = some "WSR"
    ∧ YR_WATER_TO_AREA "LRLM" = some "WSR"
    ∧ (∀ w, (GetHarArea.YR_WATER_TO_AREA w).isSome = true ↔
      (w = "HILM" ∨ w = "HRLM"))
    ∧ GetHarArea.YR_WATER_TO_AREA "HILM" = some "WSI"
    ∧ GetHarArea.YR_WATER_TO_AREA "HRLM" = some "WSR" := by
  refine ⟨?_, by decide, by decide, by decide, by decide, ?_, by decide, by decide⟩
  · intro w
    unfold YR_WATER_TO_AREA
    by_cases h1 : w = "HILM" <;> by_cases h2 : w = "LILM" <;>
      by_cases h3 : w = "HRLM" <;> by_cases h4 : w = "LRLM" <;>
        simp [h1, h2, h3, h4]
  · intro w
    unfold GetHarArea.YR_WATER_TO_AREA
    by_cases h1 : w = "HILM" <;> by_cases h3 : w = "HRLM" <;> simp [h1, h3]

/-- Counterexample for C9 as stated: the translation cited in
`get_har_area.py` is not total over the four recognized yield water codes —
it has no entry for LILM, although the in-group translation maps LILM. -/
theorem har_water_map_partial_cex :
    GetHarArea.YR_WATER_TO_AREA "LILM" = none
    ∧ YR_WATER_TO_AREA "LILM" = some "WSI" := by
  constructor
  · decide
  · decide

/-- Witness for C9 applied at a concrete recognized code. -/
theorem water_regime_mappings_witness :
    (YR_WATER_TO_AREA "LRLM").isSome = true :=
  (water_regime_mappings.1 "LRLM").mpr (by decide)

/-- C10: when a group present in the calorie mapping has no entry in the
crop-group mapping, the multi-group calorie reduction fails with an uncaught
error (the `dict.get` miss yields `None`, and the group computation raises),
for every loader and resampler. -/
theorem missing_group_mapping_err (resample : Resampler) (loader : Loader)
    (crop_mapping : List (String × List String)) (calorie_mapping : List (String × ℚ))
    (water_code variable_code_yield period climate_model scenario : String)
    (g : String) (kc : ℚ)
    (hmem : (g, kc) ∈ calorie_mapping) (hlook : crop_mapping.lookup g = none) :
    exceptErr (sum_groups_kcal resample loader crop_mapping calorie_mapping water_code
      variable_code_yield period climate_model scenario) = true := by
  unfold sum_groups_kcal
  have h := sumLayersLoop_err resample loader crop_mapping water_code
    variable_code_yield period climate_model scenario calorie_mapping hmem hlook []
  cases hsl : sumLayersLoop resample loader crop_mapping water_code
      variable_code_yield period climate_model scenario calorie_mapping [] with
  | error e => simp [exceptErr]
  | ok layers =>
    rw [hsl] at h
    simp [exceptErr] at h

/-- Witness for C10 on a concrete calorie mapping with an unmapped group. -/
theorem missing_group_mapping_err_witness :
    exceptErr (sum_groups_kcal resampleId failLoader [] [("XYZ", 5)] "HILM"
      "RES05-YCX" "P" "M" "S") = true :=
  missing_group_mapping_err resampleId failLoader [] [("XYZ", 5)] "HILM"
    "RES05-YCX" "P" "M" "S" "XYZ" 5 (by decide) (by decide)

/-- C1 (amended): every cell of the reducer output is non-NaN and equal to
the sum of the non-NaN contributions at that cell (absent ones as 0); in
particular a cell that is NaN in every contribution yields 0, not NaN. -/
theorem sum_skipna_cells (hd : Raster) (tl : List Raster) (i j : Nat) :
    (sumSkipna hd tl).data i j
      = some (((hd :: tl).filterMap (fun r => r.data i j)).sum) := by
  show some (nansum ((hd :: tl).map (fun r => r.data i j))) = _
  rw [nansum_eq, List.filterMap_map]
  rfl

/-- Counterexample for C1 as stated: a cell NaN in every group contribution
comes out as 0, not NaN, both for the bare reducer step and end-to-end
through `sum_groups_kcal` with an all-members-missing group whose area raster
is NaN at cell (0,0). -/
theorem sum_skipna_allnan_cex :
    (sumSkipna (nanRaster grid1) [nanRaster grid1]).data 0 0 = some 0
    ∧ (nanRaster grid1).data 0 0 = none
    ∧ (sum_groups_kcal resampleId nanAreaLoader [("G", ["C1"])] [("G", 10)] "HILM"
        "RES05-YCX" "P" "M" "S").toOption.map (fun r => r.data 0 0)
      = some (some 0) := by
  refine ⟨?_, rfl, ?_⟩
  · simp [sumSkipna, nansum, nanRaster]
  · have hstate := group_state_spec resampleId nanAreaLoader "G" ["C1"] "P" "M" "S"
      (rfl : YR_WATER_TO_AREA "HILM" = some "WSI")
      (rfl : nanAreaLoader (statPath "RES06-HAR" "G" "WSI") = .ok (holeRaster grid1 100))
      (rfl : schemeA "RES05-YCX" = true)
    have hload : loadedRasters nanAreaLoader "RES05-YCX" "P" "M" "S" "HILM" ["C1"]
        = [] := rfl
    have hfail : failedCrops nanAreaLoader "RES05-YCX" "P" "M" "S" "HILM" ["C1"]
        = ["C1"] := rfl
    rw [hload, hfail] at hstate
    unfold sum_groups_kcal sumLayersLoop group_kcal_average
    have hlk : List.lookup "G" [("G", ["C1"])] = some ["C1"] := rfl
    rw [hlk, hstate]
    simp [sumLayersLoop, sumSkipna, nansum, mulScalar, holeRaster, Except.toOption]

/-- C2 (amended): in `group_kcal_average`, only the harvested-area raster is
aligned (once, lazily) to the grid of the first successfully loaded member
yield raster; the member yield rasters themselves are collected unchanged, in
order, with no realignment. -/
theorem member_layers_not_realigned (resample : Resampler) (loader : Loader)
    (water_code aw group : String) (crops : List String)
    (variable_code_yield period climate_model scenario : String) (A : Raster)
    (hw : YR_WATER_TO_AREA water_code = some aw)
    (hA : loader (statPath "RES06-HAR" group aw) = .ok A)
    (hvc : schemeA variable_code_yield = true) :
    group_kcal_state resample loader group (some crops) water_code variable_code_yield
        period climate_model scenario
      = .ok
        { layers := loadedRasters loader variable_code_yield period climate_model
            scenario water_code crops,
          ref := (loadedRasters loader variable_code_yield period climate_model
            scenario water_code crops).head?,
          areaG :=
            match (loadedRasters loader variable_code_yield period climate_model
                scenario water_code crops).head? with
            | none => A
            | some y => alignTo resample y A,
          warns := failedCrops loader variable_code_yield period climate_model
            scenario water_code crops }
    ∧ ∀ y, (loadedRasters loader variable_code_yield period climate_model scenario
        water_code crops).head? = some y → (alignTo resample y A).grid = y.grid := by
  constructor
  · exact group_state_spec resample loader group crops period climate_model scenario
      hw hA hvc
  · intro y hy
    exact alignTo_grid resample y A

/-- Counterexample for C2 as stated: with two member yield rasters on
different grids, the loop collects the second one unchanged — the layers
entering the mean are on grids `[grid1, grid2]` while the reference (first
loaded) grid is `grid1`, so not all member rasters are on the common grid. -/
theorem member_grids_mismatch_cex :
    ((group_kcal_state resampleId twoGridLoader "G" (some ["C1", "C2"]) "HILM"
        "RES05-YCX" "P" "M" "S").toOption.map
      (fun st => (st.layers.map (fun r => r.grid), st.ref.map (fun r => r.grid))))
      = some ([grid1, grid2], some grid1)
    ∧ grid2 ≠ grid1 := by
  constructor
  · rfl
  · decide

/-- Witness for C2 (amended) at the two-grid loader. -/
theorem member_layers_not_realigned_witness :
    group_kcal_state resampleId twoGridLoader "G" (some ["C1", "C2"]) "HILM"
        "RES05-YCX" "P" "M" "S"
      = .ok
        { layers := loadedRasters twoGridLoader "RES05-YCX" "P" "M" "S" "HILM"
            ["C1", "C2"],
          ref := (loadedRasters twoGridLoader "RES05-YCX" "P" "M" "S" "HILM"
            ["C1", "C2"]).head?,
          areaG :=
            match (loadedRasters twoGridLoader "RES05-YCX" "P" "M" "S" "HILM"
                ["C1", "C2"]).head? with
            | none => constRaster grid1 5
            | some y => alignTo resampleId y (constRaster grid1 5),
          warns := failedCrops twoGridLoader "RES05-YCX" "P" "M" "S" "HILM"
            ["C1", "C2"] } :=
  (member_layers_not_realigned resampleId twoGridLoader "HILM" "WSI" "G"
    ["C1", "C2"] "RES05-YCX" "P" "M" "S" (constRaster grid1 5) rfl rfl rfl).1

/-- C3 (amended): with zero successfully loaded member yield rasters, the
group aggregator normally returns `area * 0.0` — a raster on the
harvested-area raster's grid that is 0 at every non-NaN area cell and NaN at
its NaN cells — independently of `kcal_per_kg`. -/
theorem no_members_zero_times_area (resample : Resampler) (loader : Loader)
    (water_code aw group : String) (crops : List String)
    (variable_code_yield period climate_model scenario : String) (kcal_per_kg : ℚ)
    (A : Raster)
    (hw : YR_WATER_TO_AREA water_code = some aw)
    (hA : loader (statPath "RES06-HAR" group aw) = .ok A)
    (hvc : schemeA variable_code_yield = true)
    (hnone : loadedRasters loader variable_code_yield period climate_model scenario
      water_code crops = []) :
    group_kcal_average resample loader group (some crops) kcal_per_kg water_code
        variable_code_yield period climate_model scenario
      = .ok (mulScalar A 0, failedCrops loader variable_code_yield period
          climate_model scenario water_code crops)
    ∧ (mulScalar A 0).grid = A.grid
    ∧ ∀ i j, (mulScalar A 0).data i j = (A.data i j).map (fun _ => 0) := by
  refine ⟨?_, rfl, ?_⟩
  · unfold group_kcal_average
    rw [group_state_spec resample loader group crops period climate_model scenario
      hw hA hvc, hnone]
    rfl
  · intro i j
    unfold mulScalar
    cases ha : A.data i j <;> simp [ha]

/-- Counterexample for C3 as stated: when the harvested-area raster has a NaN
cell, the degraded output is NaN there, not 0 — it is not an all-zero
raster (it is zero only at the area raster's non-NaN cells). -/
theorem no_members_nan_cell_cex :
    okCell (group_kcal_average resampleId nanAreaLoader "G" (some ["C1"]) 39.4 "HILM"
      "RES05-YCX" "P" "M" "S") 0 0 = some none
    ∧ okCell (group_kcal_average resampleId nanAreaLoader "G" (some ["C1"]) 39.4 "HILM"
      "RES05-YCX" "P" "M" "S") 0 1 = some (some 0)
    ∧ exceptErr (group_kcal_average resampleId nanAreaLoader "G" (some ["C1"]) 39.4
      "HILM" "RES05-YCX" "P" "M" "S") = false := by
  have hstate := group_state_spec resampleId nanAreaLoader "G" ["C1"] "P" "M" "S"
    (rfl : YR_WATER_TO_AREA "HILM" = some "WSI")
    (rfl : nanAreaLoader (statPath "RES06-HAR" "G" "WSI") = .ok (holeRaster grid1 100))
    (rfl : schemeA "RES05-YCX" = true)
  have hload : loadedRasters nanAreaLoader "RES05-YCX" "P" "M" "S" "HILM" ["C1"]
      = [] := rfl
  rw [hload] at hstate
  unfold group_kcal_average
  rw [hstate]
  refine ⟨?_, ?_, ?_⟩ <;>
    simp [okCell, exceptErr, Except.toOption, mulScalar, holeRaster]

/-- Witness for C3 (amended) at a concrete area raster with a NaN cell. -/
theorem no_members_zero_times_area_witness :
    group_kcal_average resampleId nanAreaLoader "G" (some ["C1"]) 7 "HILM"
        "RES05-YCX" "P" "M" "S"
      = .ok (mulScalar (holeRaster grid1 100) 0, ["C1"]) :=
  ((no_members_zero_times_area resampleId nanAreaLoader "HILM" "WSI" "G" ["C1"]
    "RES05-YCX" "P" "M" "S" 7 (holeRaster grid1 100) rfl rfl rfl rfl).1).trans rfl

/-- C4: when at least one member yield raster loads, and the loaded member
rasters are on the reference grid (the first loaded member's grid, which the
area raster matches), every cell of the group output equals the unweighted
NaN-skipping mean of the available member yields, times the harvested area,
times `kcal_per_kg`. -/
theorem group_kcal_cell_formula (resample : Resampler) (loader : Loader)
    (water_code aw group : String) (crops : List String)
    (variable_code_yield period climate_model scenario : String) (kcal_per_kg : ℚ)
    (A hd : Raster) (tl : List Raster)
    (hw : YR_WATER_TO_AREA water_code = some aw)
    (hA : loader (statPath "RES06-HAR" group aw) = .ok A)
    (hvc : schemeA variable_code_yield = true)
    (hload : loadedRasters loader variable_code_yield period climate_model scenario
      water_code crops = hd :: tl)
    (hgrid : A.grid = hd.grid) (i j : Nat) :
    okCell (group_kcal_average resample loader group (some crops) kcal_per_kg
        water_code variable_code_yield period climate_model scenario) i j
      = some (specKcalCell (hd :: tl) A kcal_per_kg i j) := by
  unfold group_kcal_average
  rw [group_state_spec resample loader group crops period climate_model scenario
    hw hA hvc, hload]
  simp only [List.head?_cons]
  rw [alignTo_of_eq resample hgrid]
  simp only [okCell, Except.toOption, mulScalar, mulRaster, meanSkipna, specKcalCell]
  cases hvs : (hd :: tl).filterMap (fun r => r.data i j) with
  | nil =>
    have hall := List.filterMap_eq_nil_iff.mp hvs
    cases ha : A.data i j <;>
      (simp [hvs, ha]
       try exact ⟨hall hd (List.mem_cons_self hd tl),
         fun x hx => hall x (List.mem_cons_of_mem hd hx)⟩)
  | cons v vs =>
    have hne : ¬ (hd.data i j = none ∧ ∀ a ∈ tl, a.data i j = none) := by
      intro hcon
      have hnil : List.filterMap (fun r => r.data i j) (hd :: tl) = [] := by
        refine List.filterMap_eq_nil_iff.mpr ?_
        intro a hmem
        rcases List.mem_cons.mp hmem with heq | hmem1
        · rw [heq]; exact hcon.1
        · exact hcon.2 a hmem1
      rw [hvs] at hnil
      simp at hnil
    cases ha : A.data i j <;> simp [hvs, ha, hne]

/-- Witness for C4: the spec's end-to-end scenario — group "BAN", member
"BANA" with yield 2.0 everywhere, "PLNT" missing, area 100 everywhere,
calorie factor 39.4: every cell (here (0,0)) equals 7880. -/
theorem group_kcal_cell_formula_witness :
    okCell (group_kcal_average resampleId banLoader "BAN" (some ["BANA", "PLNT"]) 39.4
      "HILM" "RES05-YCX" "HP0120" "AGERA5" "HIST") 0 0 = some (some 7880) := by
  have h := group_kcal_cell_formula resampleId banLoader "HILM" "WSI" "BAN"
    ["BANA", "PLNT"] "RES05-YCX" "HP0120" "AGERA5" "HIST" 39.4
    (constRaster grid1 100) (constRaster grid1 2) [] rfl rfl rfl rfl rfl 0 0
  rw [h]
  norm_num [specKcalCell, constRaster, List.filterMap_cons, List.filterMap_nil]

/-- C5: a member yield load failure is absorbed (the member is skipped, its
crop recorded as a warning, the group computation completes normally), while
a harvested-area load failure is not caught and propagates out of the group
computation as that same error. -/
theorem group_load_failure_policy :
    (∀ (resample : Resampler) (loader : Loader) (group : String)
        (crops : Option (List String)) (kcal_per_kg : ℚ)
        (water_code aw variable_code_yield period climate_model scenario : String)
        (e : PyErr),
      YR_WATER_TO_AREA water_code = some aw →
      loader (statPath "RES06-HAR" group aw) = .error e →
      group_kcal_average resample loader group crops kcal_per_kg water_code
        variable_code_yield period climate_model scenario = .error e)
    ∧ (∀ (resample : Resampler) (loader : Loader) (group : String)
        (crops : List String) (kcal_per_kg : ℚ)
        (water_code aw variable_code_yield period climate_model scenario : String)
        (A : Raster),
      YR_WATER_TO_AREA water_code = some aw →
      loader (statPath "RES06-HAR" group aw) = .ok A →
      schemeA variable_code_yield = true →
      exceptErr (group_kcal_average resample loader group (some crops) kcal_per_kg
        water_code variable_code_yield period climate_model scenario) = false
      ∧ okWarns (group_kcal_average resample loader group (some crops) kcal_per_kg
          water_code variable_code_yield period climate_model scenario)
        = some (failedCrops loader variable_code_yield period climate_model scenario
            water_code crops)) := by
  constructor
  · intro rs ld group crops kcal w aw vcy p cm s e hw he
    unfold group_kcal_average group_kcal_state
    simp only [hw, statPath_ok, he]
  · intro rs ld group crops kcal w aw vcy p cm s A hw hA hvc
    unfold group_kcal_average
    rw [group_state_spec rs ld group crops p cm s hw hA hvc]
    cases hl : loadedRasters ld vcy p cm s w crops with
    | nil => simp [hl, exceptErr, okWarns, Except.toOption]
    | cons hd tl => simp [hl, exceptErr, okWarns, Except.toOption]

/-- Witness for C5: a failing area load propagates as the same error, and in
the BAN scenario the failing member "PLNT" is warned about while the group
result is a normal return. -/
theorem group_load_failure_policy_witness :
    group_kcal_average resampleId failLoader "G" (some []) 1 "HILM" "RES05-YCX"
        "P" "M" "S"
      = .error (.loadFail (statPath "RES06-HAR" "G" "WSI"))
    ∧ okWarns (group_kcal_average resampleId banLoader "BAN" (some ["BANA", "PLNT"])
        39.4 "HILM" "RES05-YCX" "HP0120" "AGERA5" "HIST") = some ["PLNT"] := by
  constructor
  · exact group_load_failure_policy.1 resampleId failLoader "G" (some []) 1 "HILM"
      "WSI" "RES05-YCX" "P" "M" "S" (.loadFail (statPath "RES06-HAR" "G" "WSI"))
      rfl rfl
  · exact ((group_load_failure_policy.2 resampleId banLoader "BAN" ["BANA", "PLNT"]
      39.4 "HILM" "WSI" "RES05-YCX" "HP0120" "AGERA5" "HIST"
      (constRaster grid1 100) rfl rfl rfl).2).trans rfl

theorem pathB_ok {variable_code : String} (h : schemeB variable_code = true)
    (period climate_model scenario crop water_code : String) :
    gaezv5_path variable_code period climate_model scenario crop water_code .https
      = .ok (statPath variable_code crop water_code) := by
  unfold schemeB at h
  rw [Bool.and_eq_true, Bool.not_eq_true'] at h
  obtain ⟨hA, h6⟩ := h
  unfold schemeA at hA
  simp only [Bool.or_eq_false_iff] at hA
  obtain ⟨⟨⟨h2, h3⟩, h4⟩, h5⟩ := hA
  unfold gaezv5_path statPath
  simp [h2, h3, h4, h5, h6]

theorem dotfree_cancel : ∀ (a b u v : List Char), ('.' : Char) ∉ a → ('.' : Char) ∉ b →
    a ++ '.' :: u = b ++ '.' :: v → a = b ∧ u = v := by
  intro a
  induction a with
  | nil =>
    intro b u v ha hb h
    cases b with
    | nil =>
      simp only [List.nil_append] at h
      exact ⟨rfl, (List.cons.injEq .. ▸ h).2⟩
    | cons d bs =>
      simp only [List.nil_append, List.cons_append] at h
      have hd : d = '.' := ((List.cons.injEq .. ▸ h).1).symm
      subst hd
      exact absurd (List.mem_cons_self _ _) hb
  | cons x as ih =>
    intro b u v ha hb h
    cases b with
    | nil =>
      simp only [List.cons_append, List.nil_append] at h
      have hx : x = '.' := (List.cons.injEq .. ▸ h).1
      subst hx
      exact absurd (List.mem_cons_self _ _) ha
    | cons d bs =>
      simp only [List.cons_append] at h
      obtain ⟨h1, h2⟩ := List.cons.injEq .. ▸ h
      subst h1
      have ha1 : ('.' : Char) ∉ as := fun hm => ha (List.mem_cons_of_mem _ hm)
      have hb1 : ('.' : Char) ∉ bs := fun hm => hb (List.mem_cons_of_mem _ hm)
      obtain ⟨h3, h4⟩ := ih bs u v ha1 hb1 h2
      exact ⟨by rw [h3], h4⟩

theorem revDotFree {s : String} (h : dotFree s) : ('.' : Char) ∉ s.data.reverse :=
  fun hm => h (List.mem_reverse.mp hm)

theorem strOfRev {s t : String} (h : s.data.reverse = t.data.reverse) : s = t :=
  String.ext (List.reverse_inj.mp h)

theorem yldPath_data_rev (vc p cm s c w : String) :
    (yldPath vc p cm s c w).data.reverse
      = 'f' :: 'i' :: 't' :: '.' :: (w.data.reverse ++ '.' :: (c.data.reverse ++ '.' ::
          (s.data.reverse ++ '.' :: (cm.data.reverse ++ '.' :: (p.data.reverse ++ '.' ::
          (vc.data.reverse ++ '.' :: (['5', 'V', '-', 'Z', 'E', 'A', 'G'] ++ '/' ::
          (vc.data.reverse ++ '/' :: (gaezBase .https).data.reverse)))))))) := by
  simp [yldPath,
    show ("/" : String).data = ['/'] from rfl,
    show ("." : String).data = ['.'] from rfl,
    show (".tif" : String).data = ['.', 't', 'i', 'f'] from rfl,
    show ("GAEZ-V5." : String).data = ['G', 'A', 'E', 'Z', '-', 'V', '5', '.'] from rfl]

theorem statPath_data_rev (vc c w : String) :
    (statPath vc c w).data.reverse
      = 'f' :: 'i' :: 't' :: '.' :: (w.data.reverse ++ '.' :: (c.data.reverse ++ '.' ::
          (vc.data.reverse ++ '.' :: (['5', 'V', '-', 'Z', 'E', 'A', 'G'] ++ '/' ::
          (vc.data.reverse ++ '/' :: (gaezBase .https).data.reverse))))) := by
  simp [statPath,
    show ("/" : String).data = ['/'] from rfl,
    show ("." : String).data = ['.'] from rfl,
    show (".tif" : String).data = ['.', 't', 'i', 'f'] from rfl,
    show ("GAEZ-V5." : String).data = ['G', 'A', 'E', 'Z', '-', 'V', '5', '.'] from rfl]

theorem yldPath_inj (vc p cm s c w vc1 p1 cm1 s1 c1 w1 : String)
    (d1 : dotFree vc) (d2 : dotFree p) (d3 : dotFree cm) (d4 : dotFree s)
    (d5 : dotFree c) (d6 : dotFree w)
    (e1 : dotFree vc1) (e2 : dotFree p1) (e3 : dotFree cm1) (e4 : dotFree s1)
    (e5 : dotFree c1) (e6 : dotFree w1)
    (h : yldPath vc p cm s c w = yldPath vc1 p1 cm1 s1 c1 w1) :
    vc = vc1 ∧ p = p1 ∧ cm = cm1 ∧ s = s1 ∧ c = c1 ∧ w = w1 := by
  have hd := congrArg (fun t : String => t.data.reverse) h
  simp only [yldPath_data_rev] at hd
  simp only [List.cons.injEq, true_and] at hd
  obtain ⟨hw, hd⟩ := dotfree_cancel _ _ _ _ (revDotFree d6) (revDotFree e6) hd
  obtain ⟨hc, hd⟩ := dotfree_cancel _ _ _ _ (revDotFree d5) (revDotFree e5) hd
  obtain ⟨hs, hd⟩ := dotfree_cancel _ _ _ _ (revDotFree d4) (revDotFree e4) hd
  obtain ⟨hcm, hd⟩ := dotfree_cancel _ _ _ _ (revDotFree d3) (revDotFree e3) hd
  obtain ⟨hp, hd⟩ := dotfree_cancel _ _ _ _ (revDotFree d2) (revDotFree e2) hd
  obtain ⟨hvc, hd⟩ := dotfree_cancel _ _ _ _ (revDotFree d1) (revDotFree e1) hd
  exact ⟨strOfRev hvc, strOfRev hp, strOfRev hcm, strOfRev hs, strOfRev hc,
    strOfRev hw⟩

theorem statPath_inj (vc c w vc1 c1 w1 : String)
    (d1 : dotFree vc) (d2 : dotFree c) (d3 : dotFree w)
    (e1 : dotFree vc1) (e2 : dotFree c1) (e3 : dotFree w1)
    (h : statPath vc c w = statPath vc1 c1 w1) :
    vc = vc1 ∧ c = c1 ∧ w = w1 := by
  have hd := congrArg (fun t : String => t.data.reverse) h
  simp only [statPath_data_rev] at hd
  simp only [List.cons.injEq, true_and] at hd
  obtain ⟨hw, hd⟩ := dotfree_cancel _ _ _ _ (revDotFree d3) (revDotFree e3) hd
  obtain ⟨hc, hd⟩ := dotfree_cancel _ _ _ _ (revDotFree d2) (revDotFree e2) hd
  obtain ⟨hvc, hd⟩ := dotfree_cancel _ _ _ _ (revDotFree d1) (revDotFree e1) hd
  exact ⟨strOfRev hvc, strOfRev hc, strOfRev hw⟩

/-- C6 (amended): the path resolver, as a pure function, deterministically
builds scheme-A identifiers embedding family, period, climate model,
scenario, crop and water code in fixed dotted order, and scheme-B
identifiers embedding only family, crop and water code (independent of
period, climate model and scenario); within each scheme it is injective over
distinct input tuples whose tokens contain no "." separator character (with
dot-carrying tokens, distinct tuples can collide). -/
theorem gaez_path_schemes :
    (∀ vc p cm s c w, schemeA vc = true →
      gaezv5_path vc p cm s c w .https = .ok (yldPath vc p cm s c w))
    ∧ (∀ vc p cm s c w, schemeB vc = true →
      gaezv5_path vc p cm s c w .https = .ok (statPath vc c w))
    ∧ (∀ vc p p1 cm cm1 s s1 c w, schemeB vc = true →
      gaezv5_path vc p cm s c w .https = gaezv5_path vc p1 cm1 s1 c w .https)
    ∧ (∀ vc p cm s c w vc1 p1 cm1 s1 c1 w1, schemeA vc = true → schemeA vc1 = true →
      dotFree vc → dotFree p → dotFree cm → dotFree s → dotFree c → dotFree w →
      dotFree vc1 → dotFree p1 → dotFree cm1 → dotFree s1 → dotFree c1 → dotFree w1 →
      gaezv5_path vc p cm s c w .https = gaezv5_path vc1 p1 cm1 s1 c1 w1 .https →
      vc = vc1 ∧ p = p1 ∧ cm = cm1 ∧ s = s1 ∧ c = c1 ∧ w = w1)
    ∧ (∀ vc p cm s c w vc1 p1 cm1 s1 c1 w1, schemeB vc = true → schemeB vc1 = true →
      dotFree vc → dotFree c → dotFree w → dotFree vc1 → dotFree c1 → dotFree w1 →
      gaezv5_path vc p cm s c w .https = gaezv5_path vc1 p1 cm1 s1 c1 w1 .https →
      vc = vc1 ∧ c = c1 ∧ w = w1) := by
  refine ⟨?_, ?_, ?_, ?_, ?_⟩
  · intro vc p cm s c w h
    exact yldPath_ok h p cm s c w
  · intro vc p cm s c w h
    exact pathB_ok h p cm s c w
  · intro vc p p1 cm cm1 s s1 c w h
    rw [pathB_ok h p cm s c w, pathB_ok h p1 cm1 s1 c w]
  · intro vc p cm s c w vc1 p1 cm1 s1 c1 w1 hA hA1 d1 d2 d3 d4 d5 d6 e1 e2 e3 e4
      e5 e6 h
    rw [yldPath_ok hA p cm s c w, yldPath_ok hA1 p1 cm1 s1 c1 w1] at h
    simp only [Except.ok.injEq] at h
    exact yldPath_inj vc p cm s c w vc1 p1 cm1 s1 c1 w1 d1 d2 d3 d4 d5 d6 e1 e2 e3
      e4 e5 e6 h
  · intro vc p cm s c w vc1 p1 cm1 s1 c1 w1 hB hB1 d1 d2 d3 e1 e2 e3 h
    rw [pathB_ok hB p cm s c w, pathB_ok hB1 p1 cm1 s1 c1 w1] at h
    simp only [Except.ok.injEq] at h
    exact statPath_inj vc c w vc1 c1 w1 d1 d2 d3 e1 e2 e3 h

/-- Counterexample for C6 as stated: two distinct scheme-A input tuples whose
period/climate-model tokens carry a "." produce the identical identifier, so
the resolver is not injective over arbitrary distinct tuples. -/
theorem gaez_path_dot_collision_cex :
    gaezv5_path "RES02" "A.B" "C" "S" "CR" "W" .https
      = gaezv5_path "RES02" "A" "B.C" "S" "CR" "W" .https
    ∧ ("A.B", "C") ≠ ("A", "B.C") := by
  constructor
  · rfl
  · decide

/-- Witness for C6: the spec's concrete example — the RES06-HAR/MAIZ/WSI
identifier is the deterministic scheme-B string (independent of the
period/model/scenario tokens passed as None). -/
theorem gaez_path_schemes_witness :
    gaezv5_path "RES06-HAR" "None" "None" "None" "MAIZ" "WSI" .https
      = .ok (statPath "RES06-HAR" "MAIZ" "WSI") :=
  gaez_path_schemes.2.1 "RES06-HAR" "None" "None" "None" "MAIZ" "WSI" (by decide)
